import Mathlib

/-!
Verification of the bhavi-stream backend (src/backend/app.py) against its
natural-language specification.

The Python module consists of a static component-type catalog `COMPONENTS`
and four Flask endpoints: `get_components` (GET /api/components),
`get_component` (GET /api/components/<id>), `save_schematic`
(POST /api/schematic) and `get_schematic` (GET /api/schematic/<id>).
Each Python function is embedded below as a pure Lean function; the module
state (the catalog global) is threaded explicitly through a small operation
step relation so that frame and idempotence properties can be stated.
-/

set_option maxHeartbeats 1000000

namespace BhaviStream

/-- JSON values, the shape of HTTP request and response bodies. -/
inductive Json where
  | null : Json
  | bool (b : Bool) : Json
  | num (n : Int) : Json
  | str (s : String) : Json
  | arr (elems : List Json) : Json
  | obj (fields : List (String × Json)) : Json

/-- Look up a key in a JSON object; `none` for absent keys and non-objects. -/
def Json.getKey : Json → String → Option Json
  | .obj fields, k => fields.lookup k
  | _, _ => none

/-- A parameter value in the catalog: either a number (e.g. `75`) or a
string (e.g. `"carbon_steel"`). -/
inductive PValue where
  | num (n : Int)
  | str (s : String)
deriving DecidableEq, BEq, Repr

/-- One entry of a component type's `parameters` dict:
`{"value": ..., "unit": ..., "options": ..., "required": ...}`.
`unit` and `options` are absent on some parameters in the source. -/
structure ParameterSpec where
  value : Option PValue
  unit : Option String
  options : Option (List PValue)
  required : Bool
deriving DecidableEq, Repr

/-- One entry of a component type's `connections` dict:
`{"type": ..., "direction": ...}`. -/
structure PortSpec where
  type : String
  direction : String
deriving DecidableEq, Repr

/-- One value of the `COMPONENTS` dict in app.py. -/
structure ComponentType where
  id : String
  name : String
  category : String
  icon : String
  parameters : List (String × ParameterSpec)
  connections : List (String × PortSpec)
  constraints : List String
deriving DecidableEq, Repr

/-- The `"tank"` entry of `COMPONENTS`. -/
def tankType : ComponentType :=
  { id := "tank", name := "Storage Tank", category := "vessel", icon := "⬜",
    parameters := [
      ("volume", ⟨none, some "m³", none, true⟩),
      ("pressure_rating", ⟨none, some "bar", none, true⟩),
      ("temperature_rating", ⟨none, some "°C", none, true⟩),
      ("material", ⟨some (.str "carbon_steel"), none,
        some [.str "carbon_steel", .str "stainless_steel", .str "plastic"], true⟩)],
    connections := [
      ("inlet", ⟨"pipe", "in"⟩),
      ("outlet", ⟨"pipe", "out"⟩),
      ("vent", ⟨"pipe", "out"⟩)],
    constraints := [
      "volume > 0",
      "pressure_rating > operating_pressure",
      "temperature_rating > operating_temperature"] }

/-- The `"control_valve"` entry of `COMPONENTS`. -/
def controlValveType : ComponentType :=
  { id := "control_valve", name := "Control Valve", category := "valve", icon := "◊",
    parameters := [
      ("cv", ⟨none, some "m³/h", none, true⟩),
      ("pressure_rating", ⟨none, some "bar", none, true⟩),
      ("fail_action", ⟨some (.str "fail_closed"), none,
        some [.str "fail_closed", .str "fail_open"], true⟩),
      ("actuator_type", ⟨some (.str "pneumatic"), none,
        some [.str "pneumatic", .str "electric", .str "hydraulic"], true⟩),
      ("signal_range", ⟨some (.str "4-20mA"), none,
        some [.str "4-20mA", .str "0-10V", .str "3-15psi"], true⟩)],
    connections := [
      ("inlet", ⟨"pipe", "in"⟩),
      ("outlet", ⟨"pipe", "out"⟩),
      ("control_signal", ⟨"signal", "in"⟩)],
    constraints := [
      "cv > 0",
      "pressure_rating >= upstream_pressure",
      "actuator_type matches signal_type"] }

/-- The `"pump"` entry of `COMPONENTS`. -/
def pumpType : ComponentType :=
  { id := "pump", name := "Centrifugal Pump", category := "rotating_equipment", icon := "⊕",
    parameters := [
      ("flow_rate", ⟨none, some "m³/h", none, true⟩),
      ("head", ⟨none, some "m", none, true⟩),
      ("power", ⟨none, some "kW", none, true⟩),
      ("efficiency", ⟨some (.num 75), some "%", none, false⟩),
      ("npsh_required", ⟨none, some "m", none, true⟩)],
    connections := [
      ("suction", ⟨"pipe", "in"⟩),
      ("discharge", ⟨"pipe", "out"⟩),
      ("power", ⟨"electrical", "in"⟩)],
    constraints := [
      "flow_rate > 0",
      "head > 0",
      "npsh_available > npsh_required"] }

/-- The `"level_controller"` entry of `COMPONENTS`. -/
def levelControllerType : ComponentType :=
  { id := "level_controller", name := "Level Controller", category := "instrument", icon := "LC",
    parameters := [
      ("measurement_range", ⟨none, some "m", none, true⟩),
      ("control_mode", ⟨some (.str "PI"), none,
        some [.str "P", .str "PI", .str "PID"], true⟩),
      ("output_signal", ⟨some (.str "4-20mA"), none,
        some [.str "4-20mA", .str "0-10V", .str "3-15psi"], true⟩),
      ("setpoint", ⟨none, some "m", none, true⟩)],
    connections := [
      ("measurement", ⟨"signal", "in"⟩),
      ("output", ⟨"signal", "out"⟩)],
    constraints := [
      "setpoint within measurement_range",
      "output_signal compatible with actuator"] }

/-- The `"pipe"` entry of `COMPONENTS`. -/
def pipeType : ComponentType :=
  { id := "pipe", name := "Pipe", category := "piping", icon := "─",
    parameters := [
      ("diameter", ⟨none, some "mm", none, true⟩),
      ("material", ⟨some (.str "carbon_steel"), none,
        some [.str "carbon_steel", .str "stainless_steel", .str "pvc"], true⟩),
      ("pressure_rating", ⟨none, some "bar", none, true⟩),
      ("length", ⟨none, some "m", none, false⟩)],
    connections := [
      ("inlet", ⟨"pipe", "in"⟩),
      ("outlet", ⟨"pipe", "out"⟩)],
    constraints := [
      "diameter > 0",
      "pressure_rating >= system_pressure"] }

/-- The module-level `COMPONENTS` dict of app.py, in insertion order. -/
def COMPONENTS : List (String × ComponentType) :=
  [("tank", tankType),
   ("control_valve", controlValveType),
   ("pump", pumpType),
   ("level_controller", levelControllerType),
   ("pipe", pipeType)]

/-- `GET /api/components`: `return jsonify(COMPONENTS)`. -/
def get_components : List (String × ComponentType) := COMPONENTS

/-- Result of `GET /api/components/<component_id>`: either a 200 with the
component definition, or a 404 with `{"error": "Component not found"}`. -/
inductive GetComponentResult where
  | found (component : ComponentType)
  | notFound (error : String)
deriving DecidableEq, Repr

/-- HTTP status of a `get_component` result. -/
def GetComponentResult.status : GetComponentResult → Nat
  | .found _ => 200
  | .notFound _ => 404

/-- Body of `get_component` over an explicit catalog (the Python handler
closes over the module global `COMPONENTS`, threaded here as an argument):
`if component_id in COMPONENTS: return jsonify(COMPONENTS[component_id])`
else a 404 error body. -/
def lookupComponentIn (catalog : List (String × ComponentType))
    (component_id : String) : GetComponentResult :=
  match catalog.lookup component_id with
  | some c => .found c
  | none => .notFound "Component not found"

/-- `GET /api/components/<component_id>` against the startup catalog. -/
def get_component (component_id : String) : GetComponentResult :=
  lookupComponentIn COMPONENTS component_id

/-- The response body of `POST /api/schematic`:
`{"message": ..., "id": ...}`. -/
structure SaveResponse where
  message : String
  id : String
deriving DecidableEq, Repr

/-- Serialization of a save response to JSON, as `jsonify` produces it. -/
def SaveResponse.toJson (r : SaveResponse) : Json :=
  .obj [("message", .str r.message), ("id", .str r.id)]

/-- `POST /api/schematic`: reads the JSON body and returns the constant
success response with implicit status 200, regardless of the body. -/
def save_schematic (schematic_data : Json) : SaveResponse × Nat :=
  (⟨"Schematic saved successfully", "temp_id"⟩, 200)

/-- The response body of `GET /api/schematic/<schematic_id>`. -/
structure SampleSchematic where
  id : String
  name : String
  components : List Json
  connections : List Json

/-- `GET /api/schematic/<schematic_id>`: returns the placeholder sample
schematic built from the requested id. -/
def get_schematic (schematic_id : String) : SampleSchematic :=
  { id := schematic_id, name := "Sample P&ID", components := [], connections := [] }

/-- The mutable module state of app.py that the endpoints can observe:
the `COMPONENTS` global (the only module-level data the handlers read). -/
structure AppState where
  components : List (String × ComponentType)

/-- The state at process start: `COMPONENTS` as defined in the source. -/
def initState : AppState := ⟨COMPONENTS⟩

/-- One exposed HTTP operation. -/
inductive Op where
  | listComponents
  | getComponent (component_id : String)
  | saveSchematic (payload : Json)
  | getSchematic (schematic_id : String)

/-- The response of one operation. -/
inductive OpResponse where
  | componentList (body : List (String × ComponentType)) (status : Nat)
  | component (result : GetComponentResult)
  | saved (body : SaveResponse) (status : Nat)
  | schematic (body : SampleSchematic) (status : Nat)

/-- Executing one operation: each handler computes its response from the
current module state and the Python handlers contain no assignment to
`COMPONENTS`, so the state is returned as the handlers leave it. -/
def step (s : AppState) : Op → OpResponse × AppState
  | .listComponents => (.componentList s.components 200, s)
  | .getComponent cid => (.component (lookupComponentIn s.components cid), s)
  | .saveSchematic payload =>
      (.saved (save_schematic payload).1 (save_schematic payload).2, s)
  | .getSchematic sid => (.schematic (get_schematic sid) 200, s)

/-- The state after a sequence of operations. -/
def runOps : AppState → List Op → AppState
  | s, [] => s
  | s, op :: rest => runOps (step s op).2 rest

/-- Boolean distinctness of a list of names. -/
def allDistinct : List String → Bool
  | [] => true
  | x :: xs => !xs.contains x && allDistinct xs

/-- A concrete schematic payload wiring the tank inlet port to the valve
inlet port (two `in`-direction ports), an incompatible connection. -/
def inToInSchematicPayload : Json :=
  .obj [
    ("id", .str "s1"),
    ("name", .str "Bad schematic"),
    ("components", .arr [
      .obj [("id", .str "t1"), ("type", .str "tank")],
      .obj [("id", .str "v1"), ("type", .str "control_valve")]]),
    ("connections", .arr [
      .obj [
        ("from", .obj [("instance", .str "t1"), ("port", .str "inlet")]),
        ("to", .obj [("instance", .str "v1"), ("port", .str "inlet")])]])]

/-- A concrete schematic payload with a duplicate instance id `"x1"` and an
unknown component type id `"unknown_widget"`. -/
def duplicateIdSchematicPayload : Json :=
  .obj [
    ("components", .arr [
      .obj [("id", .str "x1"), ("type", .str "tank")],
      .obj [("id", .str "x1"), ("type", .str "unknown_widget")]]),
    ("connections", .arr [])]

theorem step_state_eq (s : AppState) (op : Op) : (step s op).2 = s := by
  cases op <;> rfl

theorem runOps_id (s : AppState) (ops : List Op) : runOps s ops = s := by
  induction ops generalizing s with
  | nil => rfl
  | cons op rest ih => simpa [runOps, step_state_eq] using ih (step s op).2

/-- Claim C1, counterexample: the payload `inToInSchematicPayload` connects
two `in`-direction ports, so the claim requires the POST schematic endpoint
to return a ValidationReport with `overall_status = "Invalid"`; instead the
endpoint returns the fixed success body with HTTP 200, whose JSON carries no
`overall_status` key at all. -/
theorem c1_no_validation_report_cex :
    (save_schematic inToInSchematicPayload).1 =
      ⟨"Schematic saved successfully", "temp_id"⟩ ∧
    (save_schematic inToInSchematicPayload).2 = 200 ∧
    Json.getKey (SaveResponse.toJson (save_schematic inToInSchematicPayload).1)
      "overall_status" = none ∧
    Json.getKey (SaveResponse.toJson (save_schematic inToInSchematicPayload).1)
      "overall_status" ≠ some (Json.str "Invalid") :=
  ⟨rfl, rfl, rfl, fun h => Option.noConfusion h⟩

/-- Claim C1, amended: for every schematic submitted to the POST schematic
endpoint, the returned result is the constant success body with message
"Schematic saved successfully" and id "temp_id" at HTTP 200; no
ValidationReport is produced and the response carries no overall_status. -/
theorem c1_save_returns_constant_success (payload : Json) :
    save_schematic payload = (⟨"Schematic saved successfully", "temp_id"⟩, 200) ∧
    Json.getKey (SaveResponse.toJson (save_schematic payload).1)
      "overall_status" = none :=
  ⟨rfl, rfl⟩

/-- Claim C2, counterexample: the payload `duplicateIdSchematicPayload`
contains a duplicate instance id and an unknown component type id, so the
claim requires the endpoint to reject it with a SchemaError; instead the
endpoint accepts it, returning the success message at HTTP 200 with no
error key in the body. -/
theorem c2_no_schema_error_cex :
    (save_schematic duplicateIdSchematicPayload).1.message =
      "Schematic saved successfully" ∧
    (save_schematic duplicateIdSchematicPayload).2 = 200 ∧
    Json.getKey (SaveResponse.toJson (save_schematic duplicateIdSchematicPayload).1)
      "error" = none :=
  ⟨rfl, rfl, rfl⟩

/-- Claim C2, amended: the POST schematic endpoint performs no construction
validation: every payload, including those with unknown component type ids
or duplicate instance ids, is accepted with HTTP 200, the success message,
and no error field; no SchemaError is ever returned. -/
theorem c2_save_never_rejects (payload : Json) :
    (save_schematic payload).2 = 200 ∧
    (save_schematic payload).1.message = "Schematic saved successfully" ∧
    Json.getKey (SaveResponse.toJson (save_schematic payload).1) "error" = none :=
  ⟨rfl, rfl, rfl⟩

/-- Claim C3: `get_component` returns the catalog entry with HTTP 200
exactly when the requested id is a key of `COMPONENTS`, and the 404
Component-not-found error exactly when it is not. -/
theorem c3_get_component_correct (component_id : String) :
    (∀ c, COMPONENTS.lookup component_id = some c →
      get_component component_id = .found c ∧
      (get_component component_id).status = 200) ∧
    (COMPONENTS.lookup component_id = none →
      get_component component_id = .notFound "Component not found" ∧
      (get_component component_id).status = 404) := by
  constructor
  · intro c h
    have e : get_component component_id = .found c := by
      unfold get_component lookupComponentIn
      rw [h]
    exact ⟨e, by rw [e]; rfl⟩
  · intro h
    have e : get_component component_id = .notFound "Component not found" := by
      unfold get_component lookupComponentIn
      rw [h]
    exact ⟨e, by rw [e]; rfl⟩

/-- Claim C3, witness: evaluated at the present id "pump" and the absent id
"boiler". -/
theorem c3_get_component_correct_witness :
    (get_component "pump" = .found pumpType ∧
      (get_component "pump").status = 200) ∧
    (get_component "boiler" = .notFound "Component not found" ∧
      (get_component "boiler").status = 404) :=
  ⟨(c3_get_component_correct "pump").1 pumpType (by decide),
   (c3_get_component_correct "boiler").2 (by decide)⟩

/-- Claim C4: the catalog holds exactly the five component types with ids
tank, control_valve, pump, level_controller and pipe, each carrying
parameters, ports and a list of constraint strings, and the list-all
endpoint returns exactly these five definitions. -/
theorem c4_catalog_exact :
    COMPONENTS.map Prod.fst =
      ["tank", "control_valve", "pump", "level_controller", "pipe"] ∧
    get_components = COMPONENTS ∧
    COMPONENTS.all (fun e =>
      e.2.id == e.1 &&
      !e.2.parameters.isEmpty &&
      !e.2.connections.isEmpty &&
      !e.2.constraints.isEmpty) = true := by
  refine ⟨rfl, rfl, ?_⟩
  decide

/-- Claim C5: for every JSON payload the schematic save operation returns
the same constant success response with message "Schematic saved
successfully" and id "temp_id", independent of the payload. -/
theorem c5_save_payload_independent (p q : Json) :
    save_schematic p = (⟨"Schematic saved successfully", "temp_id"⟩, 200) ∧
    save_schematic p = save_schematic q :=
  ⟨rfl, rfl⟩

/-- Claim C6: in every catalog type, every parameter that declares an
options set together with a non-null default value has that default value
as a member of the options set. -/
theorem c6_defaults_in_options :
    COMPONENTS.all (fun e => e.2.parameters.all (fun p =>
      match p.2.options, p.2.value with
      | some opts, some v => opts.contains v
      | _, _ => true)) = true := by
  decide

/-- Claim C7: in every catalog type, every port has connection type pipe,
signal or electrical, direction in or out, and within one type the port
names are pairwise distinct. -/
theorem c7_ports_wellformed :
    COMPONENTS.all (fun e =>
      e.2.connections.all (fun c =>
        (c.2.type == "pipe" || c.2.type == "signal" || c.2.type == "electrical") &&
        (c.2.direction == "in" || c.2.direction == "out")) &&
      allDistinct (e.2.connections.map Prod.fst)) = true := by
  decide

/-- Claim C8: no sequence of exposed operations mutates the component
catalog, and the response any operation produces after such a sequence
equals the response it produces against the startup state. -/
theorem c8_catalog_immutable (ops : List Op) :
    (runOps initState ops).components = COMPONENTS ∧
    ∀ op, (step (runOps initState ops) op).1 = (step initState op).1 := by
  rw [runOps_id initState ops]
  exact ⟨rfl, fun _ => rfl⟩

/-- Claim C9: two consecutive invocations of the schematic save operation
on the same unchanged payload produce equal responses. -/
theorem c9_save_idempotent (payload : Json) (s : AppState) :
    (step s (.saveSchematic payload)).1 =
      (step (step s (.saveSchematic payload)).2 (.saveSchematic payload)).1 :=
  rfl

/-- Claim C10: for every schematic id the retrieval operation returns a
schematic whose id equals the requested id, whose name is "Sample P&ID"
and whose components and connections are empty; the response is the same
against every module state, so no stored schematic is consulted. -/
theorem c10_get_schematic_placeholder (schematic_id : String) :
    get_schematic schematic_id =
      { id := schematic_id, name := "Sample P&ID",
        components := [], connections := [] } ∧
    ∀ s t : AppState,
      (step s (.getSchematic schematic_id)).1 =
        (step t (.getSchematic schematic_id)).1 :=
  ⟨rfl, fun _ _ => rfl⟩

end BhaviStream
